import Mathlib

/-!
Verification of the OsmoHLR CTRL-protocol client in `add_subscriber.py`.

The client (`OsmoCtrlClient`) talks a length-framed text command protocol
over a TCP stream: it drains leftover bytes before each command, encodes a
GET/SET command, writes it, then loops on blocking receives, skipping TRAP
(notification) frames until a non-TRAP frame is obtained, and verifies the
reply against what was sent.

The script inherits its codec from the external `osmopy.osmo_ipa.Ctrl`
class, which is not part of this repository; those codec operations
(framing, `split_combined`, `skip_traps`, `cmd`, `parse`, `verify`,
`rem_header`) are modelled from the spec (sections 4.2 and 6): frames are
a 2-byte big-endian length prefix followed by exactly that many payload
bytes, and payloads are whitespace-delimited
`<transaction_id> <VERB> <variable>[ <value>]` text.

Bytes are modelled as natural numbers, byte strings as `List Nat`, and the
stream of `sock.recv` results as a list of chunks (an exhausted list means
the peer closed the connection, in which case a real `recv` returns the
empty byte string on every subsequent call, without raising).
-/

set_option autoImplicit false

namespace AddSubscriber

/-- Byte strings: Python `bytes` values, one natural number per byte. -/
abbrev Bytes := List Nat

/-- ASCII bytes of a string literal (Python `str.encode`). -/
def strBytes (s : String) : Bytes := s.toList.map Char.toNat

/-- Modelled from the spec: frame encoding — a 2-byte big-endian length
prefix equal to the payload length, followed by the payload
(`osmopy.osmo_ipa.Ctrl.add_header` is not in this repository). -/
def encode_frame (p : Bytes) : Bytes :=
  (p.length / 256) :: (p.length % 256) :: p

/-- Modelled from the spec: `rem_header` strips the 2-byte length prefix
from a frame. -/
def rem_header (f : Bytes) : Bytes := f.drop 2

/-- Modelled from the spec: `split_combined` peels the first complete frame
(header included) off a buffer, returning it with the unconsumed
remainder; `none` when the buffer does not yet hold a complete frame
(fewer than 2 bytes, or fewer payload bytes than the prefix declares). -/
def split_combined (buf : Bytes) : Option (Bytes × Bytes) :=
  match buf with
  | h :: l :: rest =>
      if h * 256 + l ≤ rest.length then
        some (h :: l :: rest.take (h * 256 + l), rest.drop (h * 256 + l))
      else none
  | _ => none

theorem split_combined_rest_lt (buf f rest : Bytes)
    (h : split_combined buf = some (f, rest)) : rest.length < buf.length := by
  match buf with
  | [] => simp [split_combined] at h
  | [_] => simp [split_combined] at h
  | a :: b :: r =>
      simp only [split_combined] at h
      by_cases hle : a * 256 + b ≤ r.length
      · rw [if_pos hle, Option.some.injEq, Prod.mk.injEq] at h
        rw [← h.2]
        simp only [List.length_drop, List.length_cons]
        omega
      · simp [hle] at h

/-! ### Message codec (modelled from the spec, section 4.2 and 6) -/

/-- Protocol verbs (spec section 6). -/
inductive Verb
  | GET
  | SET
  | TRAP
  | GET_REPLY
  | SET_REPLY
  | TRAP_REPLY
  | ERROR
deriving DecidableEq, Repr

/-- ASCII token of a verb. -/
def verb_token (v : Verb) : Bytes :=
  match v with
  | .GET => strBytes "GET"
  | .SET => strBytes "SET"
  | .TRAP => strBytes "TRAP"
  | .GET_REPLY => strBytes "GET_REPLY"
  | .SET_REPLY => strBytes "SET_REPLY"
  | .TRAP_REPLY => strBytes "TRAP_REPLY"
  | .ERROR => strBytes "ERROR"

/-- Decode a verb token. -/
def decode_verb (t : Bytes) : Option Verb :=
  if t = strBytes "GET" then some .GET
  else if t = strBytes "SET" then some .SET
  else if t = strBytes "TRAP" then some .TRAP
  else if t = strBytes "GET_REPLY" then some .GET_REPLY
  else if t = strBytes "SET_REPLY" then some .SET_REPLY
  else if t = strBytes "TRAP_REPLY" then some .TRAP_REPLY
  else if t = strBytes "ERROR" then some .ERROR
  else none

/-- A decoded message (spec section 3): transaction id, verb, variable,
optional value. Token fields stay raw byte strings. -/
structure Msg where
  tx : Bytes
  verb : Verb
  var : Bytes
  value : Option Bytes
deriving DecidableEq, Repr

/-- Split a byte string at its first space (byte 32): the token before it
and the remainder after it; `none` when it holds no space. -/
def splitFirst (bs : Bytes) : Option (Bytes × Bytes) :=
  match bs with
  | [] => none
  | b :: rest =>
      if b = 32 then some ([], rest)
      else
        match splitFirst rest with
        | some (t, r) => some (b :: t, r)
        | none => none

/-- Modelled from the spec: `decode_message` tokenizes a frame payload
`<transaction_id> <VERB> <variable>[ <value>]` into a `Msg`; like the
source protocol's `split(' ', 3)`, everything after the variable token is
the value, verbatim. `none` on a malformed payload. -/
def decode_msg (p : Bytes) : Option Msg :=
  match splitFirst p with
  | none => none
  | some (txTok, r1) =>
      match splitFirst r1 with
      | none => none
      | some (verbTok, r2) =>
          match decode_verb verbTok with
          | none => none
          | some vb =>
              match splitFirst r2 with
              | none => if r2 = [] then none else some ⟨txTok, vb, r2, none⟩
              | some (varTok, r3) => some ⟨txTok, vb, varTok, some r3⟩

/-- Modelled from the spec: payload text of an outgoing or incoming
message, `<transaction_id> <VERB> <variable>[ <value>]`. -/
def encode_payload (tx : Bytes) (vb : Verb) (v : Bytes) (val : Option Bytes) : Bytes :=
  tx ++ 32 :: verb_token vb ++ 32 :: v ++
    (match val with
     | none => []
     | some w => 32 :: w)

/-- Modelled from the spec: `Ctrl.cmd` builds the framed command bytes for
a variable and optional value — a SET when a value is given, a GET
otherwise. The transaction id (random in the source) is a parameter. -/
def cmd (tx : Bytes) (v : Bytes) (val : Option Bytes) : Bytes :=
  encode_frame (encode_payload tx (if val.isSome then .SET else .GET) v val)

/-- `is_notification` (spec section 4.2) lifted to a raw frame: true when
the frame's payload decodes to a TRAP message. -/
def is_trap_frame (f : Bytes) : Bool :=
  match decode_msg (rem_header f) with
  | some m =>
      match m.verb with
      | .TRAP => true
      | _ => false
  | none => false

/-- Structural-fuel worker for `skip_traps`: each peeled frame consumes at
least the 2 prefix bytes, so `data.length` steps always suffice. -/
def skipTrapsAux (fuel : Nat) (data : Bytes) : Option Bytes :=
  match fuel with
  | 0 => none
  | fuel + 1 =>
      match split_combined data with
      | none => none
      | some (f, rest) =>
          if is_trap_frame f then skipTrapsAux fuel rest else some f

/-- Modelled from the spec: `skip_traps` walks the complete frames of a
buffer and returns the first non-TRAP frame (header included), skipping
and discarding TRAP frames; `none` when every complete frame is a TRAP or
the buffer holds no complete frame. -/
def skip_traps (data : Bytes) : Option Bytes :=
  skipTrapsAux data.length data

theorem skipTrapsAux_nil (fuel : Nat) : skipTrapsAux fuel [] = none := by
  cases fuel <;> simp [skipTrapsAux, split_combined]

theorem skipTrapsAux_fuel (fuel fuel' : Nat) (data : Bytes)
    (h : data.length ≤ fuel) (h' : data.length ≤ fuel') :
    skipTrapsAux fuel data = skipTrapsAux fuel' data := by
  induction fuel generalizing fuel' data with
  | zero =>
      have : data = [] := List.length_eq_zero.mp (Nat.le_zero.mp h)
      subst this
      simp [skipTrapsAux_nil]
  | succ n ih =>
      match fuel' with
      | 0 =>
          have : data = [] := List.length_eq_zero.mp (Nat.le_zero.mp h')
          subst this
          simp [skipTrapsAux_nil]
      | m + 1 =>
          simp only [skipTrapsAux]
          match hs : split_combined data with
          | none => rfl
          | some (f, rest) =>
              have hlt := split_combined_rest_lt data f rest hs
              by_cases ht : is_trap_frame f
              · simp only [ht, if_pos]
                exact ih m rest (by omega) (by omega)
              · simp [ht]

/-- Step equation: peeling one complete frame off the front. -/
theorem skip_traps_step (data f rest : Bytes)
    (hs : split_combined data = some (f, rest)) :
    skip_traps data = if is_trap_frame f then skip_traps rest else some f := by
  have hlt := split_combined_rest_lt data f rest hs
  have h1 : 1 ≤ data.length := by omega
  unfold skip_traps
  rw [show data.length = (data.length - 1) + 1 by omega]
  simp only [skipTrapsAux, hs]
  by_cases ht : is_trap_frame f
  · simp only [ht, if_pos]
    exact skipTrapsAux_fuel _ _ rest (by omega) (le_refl _)
  · simp [ht]

theorem skip_traps_stuck (data : Bytes) (hs : split_combined data = none) :
    skip_traps data = none := by
  unfold skip_traps
  cases h : data.length with
  | zero => simp [skipTrapsAux]
  | succ n => simp [skipTrapsAux, hs]

/-! ### The drain step `OsmoCtrlClient._leftovers` (src lines 42-58) -/

/-- The logging loop of `_leftovers`: repeatedly `split_combined` the
drained bytes, printing each complete frame's payload, until no complete
frame remains. The returned list is what gets logged; whatever trailing
bytes remain after the last complete frame are simply dropped when the
function returns (the source keeps no buffer for them). -/
def drainAux (fuel : Nat) (data : Bytes) : List Bytes :=
  match fuel with
  | 0 => []
  | fuel + 1 =>
      match split_combined data with
      | none => []
      | some (f, rest) => rem_header f :: drainAux fuel rest

def drain_frames (data : Bytes) : List Bytes :=
  drainAux data.length data

theorem drainAux_fuel (fuel fuel' : Nat) (data : Bytes)
    (h : data.length ≤ fuel) (h' : data.length ≤ fuel') :
    drainAux fuel data = drainAux fuel' data := by
  induction fuel generalizing fuel' data with
  | zero =>
      have : data = [] := List.length_eq_zero.mp (Nat.le_zero.mp h)
      subst this
      cases fuel' <;> simp [drainAux, split_combined]
  | succ n ih =>
      match fuel' with
      | 0 =>
          have : data = [] := List.length_eq_zero.mp (Nat.le_zero.mp h')
          subst this
          simp [drainAux, split_combined]
      | m + 1 =>
          simp only [drainAux]
          match hs : split_combined data with
          | none => rfl
          | some (f, rest) =>
              have hlt := split_combined_rest_lt data f rest hs
              exact congrArg _ (ih m rest (by omega) (by omega))

/-- Step equation: logging one complete frame off the front. -/
theorem drain_frames_step (data f rest : Bytes)
    (hs : split_combined data = some (f, rest)) :
    drain_frames data = rem_header f :: drain_frames rest := by
  have hlt := split_combined_rest_lt data f rest hs
  unfold drain_frames
  rw [show data.length = (data.length - 1) + 1 by omega]
  simp only [drainAux, hs]
  exact congrArg _ (drainAux_fuel _ _ rest (by omega) (le_refl _))

theorem drain_frames_stuck (data : Bytes) (hs : split_combined data = none) :
    drain_frames data = [] := by
  unfold drain_frames
  cases h : data.length with
  | zero => simp [drainAux]
  | succ n => simp [drainAux, hs]

/-- Outcome of the single non-blocking `sock.recv(1024, MSG_DONTWAIT)`
inside `_leftovers`: either a socket error was raised (in particular
the EAGAIN/EWOULDBLOCK raised when no data is queued, so the call never
blocks), or it returned some bytes. -/
inductive RecvOutcome
  | sockFail
  | got (data : Bytes)
deriving DecidableEq, Repr

/-- `OsmoCtrlClient._leftovers` (src lines 42-58): returns `false` when
the non-blocking receive raises, `false` when it returns no bytes, and
otherwise logs the complete frames of the single read and returns `true`.
The result pairs the returned flag with the logged payloads; nothing else
leaves the function — a partial trailing frame is not retained. -/
def leftovers (o : RecvOutcome) : Bool × List Bytes :=
  match o with
  | .sockFail => (false, [])
  | .got data =>
      if data.length ≠ 0 then (true, drain_frames data) else (false, [])

/-! ### The receive loop of `send_command` (src lines 28-34) -/

/-- One blocking `sock.recv(4096)` against a scripted stream of chunks.
An exhausted list models a peer that closed the connection: every further
`recv` returns the empty byte string (Python `recv` does not raise on an
orderly close). -/
def recv (chunks : List Bytes) : Bytes × List Bytes :=
  match chunks with
  | [] => ([], [])
  | c :: rest => (c, rest)

/-- The `while True` receive loop of `send_command` (src lines 28-34):
each iteration reads one chunk and applies `skip_traps` to it alone; the
loop exits with the first non-TRAP frame some chunk yields. `fuel` bounds
the number of iterations modelled; `none` means the loop has not
terminated within `fuel` iterations (each chunk is processed in
isolation — the source keeps no bytes from one `recv` to the next). -/
def recv_loop (fuel : Nat) (chunks : List Bytes) : Option Bytes :=
  match fuel with
  | 0 => none
  | fuel + 1 =>
      match skip_traps (recv chunks).1 with
      | some f => some f
      | none => recv_loop fuel (recv chunks).2

/-! ### Reply verification (modelled from the spec, section 4.3 step 4) -/

/-- Failures of `send_command`'s decode/verify stage (spec section 7):
a reply that does not tokenize, or a reply whose transaction id, verb,
variable or value does not match what was sent — the MismatchError
carries both the expected and the actual message. -/
inductive CtrlFailure
  | parseFail (raw : Bytes)
  | mismatch (expected : Msg) (actual : Msg)
deriving DecidableEq, Repr

/-- The success verb for the verb family sent: SET_REPLY when a value was
sent (SET), GET_REPLY otherwise (GET). -/
def reply_verb (val : Option Bytes) : Verb :=
  if val.isSome then .SET_REPLY else .GET_REPLY

/-- The reply `send_command` expects for transaction id `tx`, variable `v`
and optional value `val`. For a GET the reply's value is the fetched value
and is not constrained. -/
def expected_msg (tx : Bytes) (v : Bytes) (val : Option Bytes) : Msg :=
  ⟨tx, reply_verb val, v, val⟩

/-- Does a decoded reply match what was sent? Transaction id, success verb
for the sent verb family, and variable must agree; the value must agree
when one was sent (SET). -/
def matches_expected (m : Msg) (tx : Bytes) (v : Bytes) (val : Option Bytes) : Bool :=
  decide (m.tx = tx) && decide (m.verb = reply_verb val) && decide (m.var = v) &&
    (match val with
     | none => true
     | some w => decide (m.value = some w))

/-- Modelled from the spec: `Ctrl.verify` checks the obtained reply frame
against the sent transaction id, variable and value, returning the reply's
decoded verb and value on success and failing with a `mismatch` carrying
the expected and actual messages otherwise (`parseFail` when the payload
does not tokenize). -/
def verify (ret : Bytes) (tx : Bytes) (v : Bytes) (val : Option Bytes) :
    Except CtrlFailure (Verb × Option Bytes) :=
  match decode_msg (rem_header ret) with
  | none => .error (.parseFail ret)
  | some m =>
      if matches_expected m tx v val then .ok (m.verb, m.value)
      else .error (.mismatch (expected_msg tx v val) m)

/-! ### `send_command` (src lines 23-35) -/

/-- Observable outcome of one `send_command` call: a verified reply
(raw payload with header stripped, plus the decoded verb and value), a
raised failure, or a receive loop still running after the modelled fuel —
on a stream that never yields a non-TRAP frame the loop never exits. -/
inductive SendOutcome
  | ok (raw : Bytes) (vb : Verb) (value : Option Bytes)
  | failed (e : CtrlFailure)
  | stillLooping
deriving DecidableEq, Repr

/-- `OsmoCtrlClient.send_command` after the drain and write steps (src
lines 28-35): run the receive loop over the scripted chunk stream, then
`rem_header` and `verify` the obtained frame. -/
def send_command (tx : Bytes) (v : Bytes) (val : Option Bytes)
    (chunks : List Bytes) (fuel : Nat) : SendOutcome :=
  match recv_loop fuel chunks with
  | none => .stillLooping
  | some ret =>
      match verify ret tx v val with
      | .ok (k, w) => .ok (rem_header ret) k w
      | .error e => .failed e

/-- `OsmoCtrlClient.send_command` including the pre-send drain (src line
25): `_leftovers` reads and logs whatever is queued, its result is
discarded (the source ignores the return value and keeps no remainder),
and the receive loop then starts from the chunk stream alone. -/
def send_command_full (tx : Bytes) (v : Bytes) (val : Option Bytes)
    (queued : RecvOutcome) (chunks : List Bytes) (fuel : Nat) : SendOutcome :=
  let _logged := leftovers queued
  send_command tx v val chunks fuel

/-! ### The write step (src line 27) -/

/-- Python `socket.send`: the OS accepts some prefix of the bytes — at
most `accepted` of them — and the call returns how many it took. The
transmitted bytes are that prefix. -/
def sock_send (c : Bytes) (accepted : Nat) : Bytes := c.take accepted

/-- The client's write step (src line 27): a single `self.sock.send(c)`
whose return value is ignored — the call site proceeds unconditionally
(flag `true`) whatever prefix was actually transmitted. -/
def client_write (c : Bytes) (accepted : Nat) : Bytes × Bool :=
  (sock_send c accepted, true)

/-! ### `OsmoCtrlClient.close` (src lines 37-40) and client state -/

/-- OS-level state of a Python socket object. -/
inductive SockState
  | opened
  | closed
deriving DecidableEq, Repr

/-- The client's connection-scoped state: `self.sock`, which is `none`
until `connect` assigns a socket (src line 14). -/
structure Client where
  sock : Option SockState
deriving DecidableEq, Repr

/-- Python `socket.close()`: marks the socket closed; calling it on an
already-closed socket is a no-op and raises nothing. -/
def sock_close (_s : SockState) : SockState := .closed

/-- `OsmoCtrlClient.close` (src lines 37-40): if `self.sock` is set, close
it; `self.sock` keeps referring to the (now closed) socket object. When no
socket was ever created the call does nothing. -/
def close (c : Client) : Client :=
  match c.sock with
  | none => c
  | some s => { sock := some (sock_close s) }

/-! ### `add_to_osmohlr` (src lines 180-217) -/

/-- Python `"ERROR" in s`: substring containment. -/
def contains_sub (needle hay : Bytes) : Bool :=
  (List.range (hay.length + 1)).any (fun i => needle.isPrefixOf (hay.drop i))

/-- Python `s.strip('+')`: drop `'+'` (byte 43) from both ends. -/
def strip_plus (s : Bytes) : Bytes :=
  ((s.dropWhile (fun b => b == 43)).reverse.dropWhile (fun b => b == 43)).reverse

/-- What one run of `add_to_osmohlr` does, given the raw payloads the two
`send_command` calls return: the `(variable, value)` pairs sent, in
order, and whether each response was reported as a failure (the source
checks for the substring `"ERROR"` and only prints; neither branch stops
the run). -/
structure OsmoHlrTrace where
  sent : List (Bytes × Option Bytes)
  createFailed : Bool
  msisdnFailed : Bool
deriving DecidableEq, Repr

/-- `add_to_osmohlr` (src lines 180-217), for a run in which both
`send_command` calls return raw payloads `reply1` and `reply2`: sends
`subscriber.create <imsi>`, checks `reply1` for `"ERROR"` (printing
either way), then unconditionally sends
`subscriber.by-imsi-<imsi>.msisdn <msisdn stripped of '+'>` and checks
`reply2` the same way. -/
def add_to_osmohlr (imsi msisdn : Bytes) (reply1 reply2 : Bytes) : OsmoHlrTrace :=
  { sent := [(strBytes "subscriber.create", some imsi),
             (strBytes "subscriber.by-imsi-" ++ imsi ++ strBytes ".msisdn",
              some (strip_plus msisdn))]
  , createFailed := contains_sub (strBytes "ERROR") reply1
  , msisdnFailed := contains_sub (strBytes "ERROR") reply2 }

/-! ### `format_pyhss_url` (src lines 74-81) -/

/-- Python strings as character lists. -/
abbrev PyStr := List Char

/-- Character list of a string literal. -/
def pystr (s : String) : PyStr := s.toList

/-- Python `str.startswith`: prefix test. -/
def startswith (pre s : PyStr) : Bool := pre.isPrefixOf s

/-- `format_pyhss_url` (src lines 74-81): prepend `http://` unless the
input already starts with it, then append `:8080` unconditionally. -/
def format_pyhss_url (api_base_url : PyStr) : PyStr :=
  (if startswith (pystr "http://") api_base_url then api_base_url
   else pystr "http://" ++ api_base_url) ++ pystr ":8080"

/-! ### Framing round-trip and receive-loop lemmas -/

theorem rem_header_encode (p : Bytes) : rem_header (encode_frame p) = p := rfl

/-- A buffer that starts with a complete encoded frame splits into exactly
that frame and the rest. -/
theorem split_combined_encode (p rest : Bytes) :
    split_combined (encode_frame p ++ rest) = some (encode_frame p, rest) := by
  have hL : p.length / 256 * 256 + p.length % 256 = p.length := by omega
  simp only [encode_frame, List.cons_append, split_combined, hL, List.length_append]
  rw [if_pos (Nat.le_add_right _ _)]
  rw [List.take_left' rfl, List.drop_left' rfl]

/-- Concatenation of a list of payloads, each wrapped in its frame. -/
def joinFrames (ps : List Bytes) : Bytes :=
  (ps.map encode_frame).flatten

/-- Draining a buffer made of complete frames logs exactly their payloads,
in order. -/
theorem drain_frames_join (ps : List Bytes) :
    drain_frames (joinFrames ps) = ps := by
  induction ps with
  | nil => exact drain_frames_stuck [] rfl
  | cons p ps ih =>
      have hs : split_combined (joinFrames (p :: ps)) =
          some (encode_frame p, joinFrames ps) := by
        simpa [joinFrames] using split_combined_encode p (joinFrames ps)
      rw [drain_frames_step _ _ _ hs, rem_header_encode, ih]

/-- Whatever `skip_traps` returns is not a notification frame. -/
theorem skipTrapsAux_not_trap (fuel : Nat) (data f : Bytes)
    (h : skipTrapsAux fuel data = some f) : is_trap_frame f = false := by
  induction fuel generalizing data with
  | zero => simp [skipTrapsAux] at h
  | succ n ih =>
      cases hs : split_combined data with
      | none => simp [skipTrapsAux, hs] at h
      | some pr =>
          obtain ⟨g, rest⟩ := pr
          simp only [skipTrapsAux, hs] at h
          by_cases ht : is_trap_frame g
          · rw [if_pos ht] at h
            exact ih rest h
          · rw [if_neg ht, Option.some.injEq] at h
            rw [← h]
            simpa using ht

theorem skip_traps_not_trap (data f : Bytes) (h : skip_traps data = some f) :
    is_trap_frame f = false :=
  skipTrapsAux_not_trap data.length data f h

/-- The receive loop only ever exits with a non-notification frame. -/
theorem recv_loop_not_trap (fuel : Nat) (chunks : List Bytes) (f : Bytes)
    (h : recv_loop fuel chunks = some f) : is_trap_frame f = false := by
  induction fuel generalizing chunks with
  | zero => simp [recv_loop] at h
  | succ n ih =>
      simp only [recv_loop] at h
      match hs : skip_traps (recv chunks).1 with
      | some g =>
          rw [hs, Option.some.injEq] at h
          exact h ▸ skip_traps_not_trap _ g hs
      | none =>
          rw [hs] at h
          exact ih (recv chunks).2 h

/-- A chunk stream none of whose chunks yields a non-TRAP frame keeps the
receive loop running for any number of iterations. In particular this
covers a closed connection (`recv` then returns the empty byte string on
every call). -/
theorem recv_loop_no_reply (fuel : Nat) (chunks : List Bytes)
    (h : ∀ c ∈ chunks, skip_traps c = none) :
    recv_loop fuel chunks = none := by
  induction fuel generalizing chunks with
  | zero => rfl
  | succ n ih =>
      simp only [recv_loop]
      match chunks with
      | [] =>
          rw [show recv [] = ([], []) from rfl]
          rw [show skip_traps [] = none from rfl]
          exact ih [] (by intro c hc; simp at hc)
      | c :: rest =>
          rw [show recv (c :: rest) = (c, rest) from rfl]
          rw [h c (by simp)]
          exact ih rest (by intro d hd; exact h d (by simp [hd]))

/-- A decoded reply does not match the expectation when its transaction id
differs from the sent one. -/
theorem matches_expected_tx_ne (m : Msg) (tx v : Bytes) (val : Option Bytes)
    (h : m.tx ≠ tx) : matches_expected m tx v val = false := by
  simp [matches_expected, h]

/-! ### Concrete frames for the scenario evaluations -/

/-- An unsolicited notification frame (spec section 8's drain scenario). -/
def trapFrame : Bytes := encode_frame (strBytes "0 TRAP subscriber.alarm raised")

/-- A well-formed GET reply frame carrying transaction id 7. -/
def replyTx7 : Bytes := encode_frame (strBytes "7 GET_REPLY net.0.name osmo")

/-- The decoded message of `replyTx7`. -/
def msgTx7 : Msg :=
  ⟨strBytes "7", .GET_REPLY, strBytes "net.0.name", some (strBytes "osmo")⟩

/-- A well-formed reply frame to a `subscriber.create` command, carrying
transaction id 42. -/
def replyCreate : Bytes := encode_frame (strBytes "42 GET_REPLY subscriber.create OK")

/-- The mismatching SET reply of spec section 8: same transaction id and
variable, but value 6 where 5 was sent. -/
def replySetSix : Bytes := encode_frame (strBytes "42 SET_REPLY x 6")

/-! ### Claims -/

/-- C1 (counterexample): the receive loop does NOT keep reading until a
frame with the generated transaction id arrives. With sent transaction id
42, a single read holding one notification followed by a non-notification
frame with transaction id 7 makes the loop exit with that frame — a
non-notification frame carrying a different transaction id IS accepted as
the reply (the command then fails in verification instead of reading on). -/
theorem claim1_loop_ignores_tx_id :
    recv_loop 1 [trapFrame ++ replyTx7] = some replyTx7 ∧
    (decode_msg (rem_header replyTx7)).map Msg.tx = some (strBytes "7") ∧
    strBytes "7" ≠ strBytes "42" ∧
    send_command (strBytes "42") (strBytes "net.0.name") none [trapFrame ++ replyTx7] 1 =
      .failed (.mismatch (expected_msg (strBytes "42") (strBytes "net.0.name") none) msgTx7) := by
  refine ⟨by decide, by decide, by decide, by decide⟩

/-- C1 (amended): the receive loop discards notifications and terminates
at the first non-notification frame regardless of its transaction id; a
mismatched transaction id is then caught by verification, which fails the
command with a MismatchError instead of returning the wrong reply as a
success — so replies of two sequential commands are still never swapped
silently. -/
theorem claim1_first_non_trap_then_verify (fuel : Nat) (chunks : List Bytes) (f : Bytes)
    (hloop : recv_loop fuel chunks = some f) :
    is_trap_frame f = false ∧
    ∀ (m : Msg) (tx v : Bytes) (val : Option Bytes),
      decode_msg (rem_header f) = some m → m.tx ≠ tx →
      send_command tx v val chunks fuel =
        .failed (.mismatch (expected_msg tx v val) m) := by
  refine ⟨recv_loop_not_trap fuel chunks f hloop, ?_⟩
  intro m tx v val hdec hne
  simp [send_command, hloop, verify, hdec, matches_expected_tx_ne m tx v val hne]

theorem claim1_first_non_trap_then_verify_witness :
    is_trap_frame replyTx7 = false ∧
    send_command (strBytes "142") (strBytes "net.0.name") none [trapFrame ++ replyTx7] 1 =
      .failed (.mismatch (expected_msg (strBytes "142") (strBytes "net.0.name") none) msgTx7) := by
  have h := claim1_first_non_trap_then_verify 1 [trapFrame ++ replyTx7] replyTx7 (by decide)
  exact ⟨h.1, h.2 msgTx7 (strBytes "142") (strBytes "net.0.name") none (by decide) (by decide)⟩

/-- C2: whenever the reply the receive loop obtains decodes to a message
that does not match the sent transaction id, success verb for the sent
verb family, variable, or (for a SET) value, `send_command` fails with a
MismatchError carrying both the expected and the actual message, rather
than returning normally. -/
theorem claim2_mismatch_raises (tx v : Bytes) (val : Option Bytes)
    (chunks : List Bytes) (fuel : Nat) (ret : Bytes) (m : Msg)
    (hloop : recv_loop fuel chunks = some ret)
    (hdec : decode_msg (rem_header ret) = some m)
    (hne : matches_expected m tx v val = false) :
    send_command tx v val chunks fuel =
      .failed (.mismatch (expected_msg tx v val) m) := by
  simp [send_command, hloop, verify, hdec, hne]

/-- The spec's own example: sent `(tx=42, SET, "x", "5")`, received
`(tx=42, SET_REPLY, "x", "6")`; the failure reports expected value 5 and
actual value 6. -/
theorem claim2_mismatch_raises_witness :
    send_command (strBytes "42") (strBytes "x") (some (strBytes "5")) [replySetSix] 1 =
      .failed (.mismatch (expected_msg (strBytes "42") (strBytes "x") (some (strBytes "5")))
        ⟨strBytes "42", .SET_REPLY, strBytes "x", some (strBytes "6")⟩) :=
  claim2_mismatch_raises (strBytes "42") (strBytes "x") (some (strBytes "5"))
    [replySetSix] 1 replySetSix
    ⟨strBytes "42", .SET_REPLY, strBytes "x", some (strBytes "6")⟩
    (by decide) (by decide) (by decide)

/-- C3: on a connection the peer has closed before any reply frame
arrived, `recv` returns the empty byte string on every call, `skip_traps`
of it is `none`, and the receive loop runs forever — for every number of
iterations it has produced nothing, and `send_command` neither returns
nor raises anything (in particular no IoError exists anywhere in the
path): the claimed IoError failure never happens. -/
theorem claim3_closed_connection_loops_forever (fuel : Nat) (tx v : Bytes)
    (val : Option Bytes) :
    recv_loop fuel [] = none ∧ send_command tx v val [] fuel = .stillLooping := by
  have h : recv_loop fuel [] = none :=
    recv_loop_no_reply fuel [] (by intro c hc; simp at hc)
  exact ⟨h, by simp [send_command, h]⟩

/-- C4: the receive path does NOT buffer partial frames. Each blocking
read is fed to `skip_traps` in isolation, so a reply frame whose bytes
arrive split at byte 3 across two reads is never reassembled: delivered
whole, the loop obtains the reply in one iteration, but delivered split
the loop obtains nothing — for any number of iterations — even though the
very same bytes have all arrived. -/
theorem claim4_split_frame_never_reassembled :
    recv_loop 1 [replyCreate] = some replyCreate ∧
    replyCreate.take 3 ++ replyCreate.drop 3 = replyCreate ∧
    (∀ fuel : Nat, recv_loop fuel [replyCreate.take 3, replyCreate.drop 3] = none) := by
  refine ⟨by decide, List.take_append_drop 3 replyCreate, fun fuel => ?_⟩
  refine recv_loop_no_reply fuel _ ?_
  intro c hc
  simp only [List.mem_cons, List.not_mem_nil, or_false] at hc
  rcases hc with h | h <;> subst h <;> decide

/-- C5: the drain step drops a partial frame tail instead of preserving
it. Draining a read that holds one complete notification frame plus the
first 3 bytes of a reply frame logs only the notification and returns —
the 3 tail bytes leave no trace. When the remaining bytes of that reply
arrive on the next (blocking) read, the receive loop can never obtain the
reply, for any number of iterations; had the tail been kept and
reconciled, the reassembled bytes decode to a successful reply, as the
unsplit run shows. -/
theorem claim5_drain_discards_partial_tail :
    leftovers (.got (trapFrame ++ replyCreate.take 3)) =
      (true, [strBytes "0 TRAP subscriber.alarm raised"]) ∧
    (∀ (fuel : Nat) (tx v : Bytes) (val : Option Bytes),
      send_command_full tx v val (.got (trapFrame ++ replyCreate.take 3))
        [replyCreate.drop 3] fuel = .stillLooping) ∧
    send_command (strBytes "42") (strBytes "subscriber.create") none
      [replyCreate.take 3 ++ replyCreate.drop 3] 1 =
      .ok (strBytes "42 GET_REPLY subscriber.create OK") .GET_REPLY (some (strBytes "OK")) := by
  refine ⟨by decide, ?_, by decide⟩
  intro fuel tx v val
  have h : recv_loop fuel [replyCreate.drop 3] = none := by
    refine recv_loop_no_reply fuel _ ?_
    intro c hc
    simp only [List.mem_cons, List.not_mem_nil, or_false] at hc
    subst hc
    decide
  simp [send_command_full, send_command, h]

/-- The framed `subscriber.create` SET command of the first OsmoHLR step,
with transaction id 42. -/
def createCmdBytes : Bytes :=
  cmd (strBytes "42") (strBytes "subscriber.create") (some (strBytes "001010000000001"))

/-- C6: the write step is a single `send` whose return value is ignored:
when the OS accepts only 1 byte, the call site proceeds exactly as on a
full write (flag `true`), yet only a 1-byte prefix of the command was
transmitted — a silent short write the claimed all-or-IoError contract
forbids. -/
theorem claim6_short_write_goes_unreported :
    (client_write createCmdBytes 1).2 = true ∧
    (client_write createCmdBytes 1).1 ≠ createCmdBytes ∧
    (client_write createCmdBytes 1).1.length = 1 ∧
    createCmdBytes.length = 42 := by decide

/-- C7: `close` is idempotent and total: calling it on any client state a
second time changes nothing further, calling it before a connection was
ever established (`self.sock = None`) leaves the client untouched, and
after a `close` the client never holds an open socket. -/
theorem claim7_close_idempotent (c : Client) :
    close (close c) = close c ∧
    close { sock := none } = { sock := none } ∧
    (close c).sock ≠ some SockState.opened := by
  rcases c with ⟨_ | s⟩ <;> simp [close, sock_close]

/-- C8: `add_to_osmohlr` always issues the MSISDN SET command as its
second command: the commands sent do not depend on the replies at all, so
even a create reply whose payload contains `"ERROR"` (reported as a
failure) is followed by the `subscriber.by-imsi-<imsi>.msisdn` command on
the same session. -/
theorem claim8_msisdn_command_always_sent
    (imsi msisdn reply1 reply1' reply2 reply2' : Bytes) :
    (add_to_osmohlr imsi msisdn reply1 reply2).sent =
      [(strBytes "subscriber.create", some imsi),
       (strBytes "subscriber.by-imsi-" ++ imsi ++ strBytes ".msisdn",
        some (strip_plus msisdn))] ∧
    (add_to_osmohlr imsi msisdn reply1 reply2).sent =
      (add_to_osmohlr imsi msisdn reply1' reply2').sent ∧
    (add_to_osmohlr imsi msisdn reply1 reply2).createFailed =
      contains_sub (strBytes "ERROR") reply1 :=
  ⟨rfl, rfl, rfl⟩

/-- No string of the form `https:// ...` passes the `http://` prefix test:
its fifth character is `s`, not `:`. -/
theorem https_no_http_prefix (s : PyStr) :
    startswith (pystr "http://") (pystr "https://" ++ s) = false := rfl

theorem pystr_8080_append :
    pystr ":8080" ++ pystr ":8080" = pystr ":8080:8080" := by decide

/-- C9: `format_pyhss_url` always returns a string ending in `:8080`,
prepends `http://` exactly when the input does not already start with it,
appends `:8080` unconditionally — so an input already ending in `:8080`
yields a result ending in `:8080:8080` (the function is not idempotent) —
and an `https://` input is still prefixed with `http://`. -/
theorem claim9_format_pyhss_url (s : PyStr) :
    (∃ t, format_pyhss_url s = t ++ pystr ":8080") ∧
    (startswith (pystr "http://") s = false →
      format_pyhss_url s = pystr "http://" ++ s ++ pystr ":8080") ∧
    (startswith (pystr "http://") s = true →
      format_pyhss_url s = s ++ pystr ":8080") ∧
    (∃ t, format_pyhss_url (s ++ pystr ":8080") = t ++ pystr ":8080:8080") ∧
    format_pyhss_url (pystr "https://" ++ s) =
      pystr "http://" ++ (pystr "https://" ++ s) ++ pystr ":8080" := by
  refine ⟨⟨_, rfl⟩, ?_, ?_, ?_, ?_⟩
  · intro h
    simp [format_pyhss_url, h, List.append_assoc]
  · intro h
    simp [format_pyhss_url, h]
  · by_cases h : startswith (pystr "http://") (s ++ pystr ":8080")
    · refine ⟨s, ?_⟩
      simp only [format_pyhss_url, h, if_pos, List.append_assoc, pystr_8080_append]
    · refine ⟨pystr "http://" ++ s, ?_⟩
      simp [format_pyhss_url, h, List.append_assoc, pystr_8080_append]
  · simp [format_pyhss_url, https_no_http_prefix s, List.append_assoc]

theorem claim9_format_pyhss_url_witness :
    format_pyhss_url (pystr "pyhss") =
      pystr "http://" ++ pystr "pyhss" ++ pystr ":8080" ∧
    format_pyhss_url (pystr "http://pyhss") = pystr "http://pyhss" ++ pystr ":8080" :=
  ⟨(claim9_format_pyhss_url (pystr "pyhss")).2.1 (by decide),
   (claim9_format_pyhss_url (pystr "http://pyhss")).2.2.1 (by decide)⟩

/-- C10: `_leftovers` never lets a socket error escape (a raised receive,
which is also how "no data queued" surfaces under MSG_DONTWAIT, yields
`false` with nothing logged and no blocking), it returns `true` exactly
when the non-blocking receive yielded at least one byte, and then every
complete frame of that single read has been logged, in order, before it
returns. -/
theorem claim10_leftovers_contract :
    leftovers .sockFail = (false, []) ∧
    leftovers (.got []) = (false, []) ∧
    (∀ data : Bytes, data ≠ [] → (leftovers (.got data)).1 = true) ∧
    (∀ ps : List Bytes, (leftovers (.got (joinFrames ps))).2 = ps) := by
  refine ⟨rfl, by simp [leftovers], ?_, ?_⟩
  · intro data h
    have hlen : data.length ≠ 0 := by simpa [List.length_eq_zero] using h
    simp [leftovers, hlen]
  · intro ps
    match ps with
    | [] => simp [leftovers, joinFrames]
    | p :: rest =>
        have hne : joinFrames (p :: rest) ≠ [] := by
          simp [joinFrames, encode_frame]
        have hlen : (joinFrames (p :: rest)).length ≠ 0 := by
          simpa [List.length_eq_zero] using hne
        simp only [leftovers, hlen, ne_eq, not_false_eq_true, if_pos]
        exact drain_frames_join (p :: rest)

theorem claim10_leftovers_contract_witness :
    (leftovers (.got (joinFrames [strBytes "0 TRAP mode standby"]))).1 = true ∧
    (leftovers (.got (joinFrames [strBytes "0 TRAP mode standby"]))).2 =
      [strBytes "0 TRAP mode standby"] :=
  ⟨claim10_leftovers_contract.2.2.1 _ (by decide),
   claim10_leftovers_contract.2.2.2 [strBytes "0 TRAP mode standby"]⟩

end AddSubscriber
